import Mathlib

/-!
Shallow embedding of the build-adapter scripts and the accessory-server
bridge client of this repository:

* `scripts/py_matter_yamltests/matter_yamltests/pseudo_clusters/clusters/accessory_server_bridge.py`
* `scripts/build/builders/android.py`
* `scripts/build/builders/bouffalolab.py`
* `scripts/build/builders/imx.py`

Python dictionaries become insertion-ordered association lists, Python
exceptions become `Except String` (or a dedicated error type), `os.environ`
becomes a function `String → Option String`, and the filesystem queries made
by the scripts (`os.path.exists`, `os.path.isfile`, `os.access`, `os.path.isdir`,
`os.walk`, `os.listdir`, file reading) become fields of an explicit `Fs`
record.  Remote XML-RPC calls and subprocess invocations are recorded as
values instead of performed, mirroring the repository's own dry-run design in
which the execution delegate records the command list.
-/

/-- `os.path.join a b` for the path shapes used by these scripts (the second
component is always relative and the first has no trailing slash). -/
def pathJoin (a b : String) : String := a ++ "/" ++ b

/-- Assignment `d[k] = v` on a Python dict represented as an insertion-ordered
association list: an existing key keeps its position and gets the new value,
a new key is appended. -/
def dictInsert {α : Type} (d : List (String × α)) (k : String) (v : α) : List (String × α) :=
  if d.any (fun kv => kv.1 == k) then
    d.map (fun kv => if kv.1 == k then (k, v) else kv)
  else
    d ++ [(k, v)]

/-- Whether an `Except` value is an error (a raised Python exception). -/
def exIsError {ε α : Type} : Except ε α → Bool
  | .error _ => true
  | .ok _ => false

/-- Whether `needle` occurs as a substring (Python `needle in hay`),
computed on the character lists. -/
def strContainsSub (needle : String) : List Char → Bool
  | [] => needle.data.isPrefixOf []
  | c :: rest => needle.data.isPrefixOf (c :: rest) || strContainsSub needle rest

/-- Filesystem and directory-listing state consulted by the builder scripts.
Modelled from the spec: the repository's execution environment (the queries
`os.path.exists`, `os.path.isfile`, `os.access(..., X_OK)`,
`os.access(..., W_OK)`, `os.path.isdir`, `os.walk`, `os.listdir` and file
reading are functions of this record; `walk` returns the `(root, file)` pairs
the `os.walk` loop of `imx.py` iterates over, `listdir` returns `none` where
`os.listdir` would raise `FileNotFoundError`, and `readLines` returns the
lines of a file already stripped of their trailing newline, as
`line.strip('\n')` produces for the files these scripts read). -/
structure Fs where
  pathExists : String → Bool
  isfile : String → Bool
  accessX : String → Bool
  accessW : String → Bool
  isdir : String → Bool
  walk : String → List (String × String)
  listdir : String → Option (List String)
  readLines : String → List String

/-! ### The accessory-server bridge client (`accessory_server_bridge.py`) -/

/-- A value carried by a test-request parameter; `str(value)` is `pyStr`. -/
inductive PyValue where
  | int (n : Int)
  | str (s : String)
deriving DecidableEq

/-- Python `str` on the values above. -/
def pyStr : PyValue → String
  | .int n => toString n
  | .str s => s

/-- One named parameter of a bridge request (`item['name']`, `item['value']`). -/
structure ReqItem where
  name : String
  value : PyValue
deriving DecidableEq

/-- A bridge request; `arguments = none` models a falsy `request.arguments`,
otherwise the list is `request.arguments['values']`. -/
structure Request where
  arguments : Option (List ReqItem)
deriving DecidableEq

/-- `_DEFAULT_KEY` of `accessory_server_bridge.py`. -/
def defaultKey : PyValue := .str "default"

/-- `_get_option(request, item_name, default_value)`: the value of the first
parameter with the given name, else the default. -/
def getOption (request : Request) (itemName : String) (defaultValue : Option PyValue) :
    Option PyValue :=
  match request.arguments with
  | none => defaultValue
  | some values =>
    match values.find? (fun item => item.name == itemName) with
    | some item => some item.value
    | none => defaultValue

/-- The loop body of `_get_start_options`: translate each recognized parameter
into its command-line option pair, skip `registerKey`, and raise
`KeyError(f'Unknown key: {name}')` on anything else. -/
def startOptionsLoop : List ReqItem → Except String (List String)
  | [] => .ok []
  | item :: rest =>
    if item.name = "discriminator" then
      (startOptionsLoop rest).map (fun opts => "--discriminator" :: pyStr item.value :: opts)
    else if item.name = "port" then
      (startOptionsLoop rest).map (fun opts => "--secured-device-port" :: pyStr item.value :: opts)
    else if item.name = "kvs" then
      (startOptionsLoop rest).map (fun opts => "--KVS" :: pyStr item.value :: opts)
    else if item.name = "minCommissioningTimeout" then
      (startOptionsLoop rest).map
        (fun opts => "--min_commissioning_timeout" :: pyStr item.value :: opts)
    else if item.name = "filepath" then
      (startOptionsLoop rest).map (fun opts => "--filepath" :: pyStr item.value :: opts)
    else if item.name = "otaDownloadPath" then
      (startOptionsLoop rest).map (fun opts => "--otaDownloadPath" :: pyStr item.value :: opts)
    else if item.name = "registerKey" then
      startOptionsLoop rest
    else
      .error ("Unknown key: " ++ item.name)

/-- `_get_start_options(request)`. -/
def getStartOptions (request : Request) : Except String (List String) :=
  match request.arguments with
  | none => .ok []
  | some values => startOptionsLoop values

/-- One remote XML-RPC call as issued through the transient server proxy. -/
inductive RemoteCall where
  | start (registerKey : Option PyValue) (options : List String)
  | stop (registerKey : Option PyValue)
  | reboot (registerKey : Option PyValue)
  | factoryReset (registerKey : Option PyValue)
  | waitForMessage (registerKey : Option PyValue) (messages : List (Option PyValue))
  | createOtaImage (otaImageFilePath rawImageFilePath rawImageContent : Option PyValue)
  | compareFiles (file1 file2 : Option PyValue)
deriving DecidableEq

/-- `AccessoryServerBridge.start`: the remote calls it issues, or the raised
error.  The option list is computed before the proxy is opened, so an
unknown-key error prevents any call. -/
def AccessoryServerBridge.start (request : Request) : Except String (List RemoteCall) :=
  let registerKey := getOption request "registerKey" (some defaultKey)
  match getStartOptions request with
  | .error e => .error e
  | .ok options => .ok [RemoteCall.start registerKey options]

/-- `AccessoryServerBridge.stop`. -/
def AccessoryServerBridge.stop (request : Request) : Except String (List RemoteCall) :=
  let registerKey := getOption request "registerKey" (some defaultKey)
  .ok [RemoteCall.stop registerKey]

/-- `AccessoryServerBridge.reboot`. -/
def AccessoryServerBridge.reboot (request : Request) : Except String (List RemoteCall) :=
  let registerKey := getOption request "registerKey" (some defaultKey)
  .ok [RemoteCall.reboot registerKey]

/-- `AccessoryServerBridge.factoryReset`. -/
def AccessoryServerBridge.factoryReset (request : Request) : Except String (List RemoteCall) :=
  let registerKey := getOption request "registerKey" (some defaultKey)
  .ok [RemoteCall.factoryReset registerKey]

/-- `AccessoryServerBridge.waitForMessage`. -/
def AccessoryServerBridge.waitForMessage (request : Request) : Except String (List RemoteCall) :=
  let registerKey := getOption request "registerKey" (some defaultKey)
  let message := getOption request "message" none
  .ok [RemoteCall.waitForMessage registerKey [message]]

/-- `AccessoryServerBridge.createOtaImage`. -/
def AccessoryServerBridge.createOtaImage (request : Request) : Except String (List RemoteCall) :=
  let otaImageFilePath := getOption request "otaImageFilePath" none
  let rawImageFilePath := getOption request "rawImageFilePath" none
  let rawImageContent := getOption request "rawImageContent" none
  .ok [RemoteCall.createOtaImage otaImageFilePath rawImageFilePath rawImageContent]

/-- `AccessoryServerBridge.compareFiles`. -/
def AccessoryServerBridge.compareFiles (request : Request) : Except String (List RemoteCall) :=
  let file1 := getOption request "file1" none
  let file2 := getOption request "file2" none
  .ok [RemoteCall.compareFiles file1 file2]

/-- The parameter names the `start` operation recognizes (`registerKey` is
consumed separately and produces no option). -/
def startRecognized (name : String) : Prop :=
  name = "discriminator" ∨ name = "port" ∨ name = "kvs" ∨
    name = "minCommissioningTimeout" ∨ name = "filepath" ∨
    name = "otaDownloadPath" ∨ name = "registerKey"

instance (name : String) : Decidable (startRecognized name) := by
  unfold startRecognized
  infer_instance

/-- The items of a request (empty for a falsy `arguments`). -/
def reqItems (request : Request) : List ReqItem :=
  request.arguments.getD []

/-! ### Android builder (`android.py`) -/

/-- The closed `AndroidBoard` enumeration. -/
inductive AndroidBoard where
  | ARM
  | ARM64
  | X64
  | X86
  | AndroidStudio_ARM
  | AndroidStudio_ARM64
  | AndroidStudio_X64
  | AndroidStudio_X86
deriving DecidableEq

/-- Python `repr` of an `AndroidBoard` member (`auto()` numbers from 1). -/
def AndroidBoard.pyRepr : AndroidBoard → String
  | .ARM => "<AndroidBoard.ARM: 1>"
  | .ARM64 => "<AndroidBoard.ARM64: 2>"
  | .X64 => "<AndroidBoard.X64: 3>"
  | .X86 => "<AndroidBoard.X86: 4>"
  | .AndroidStudio_ARM => "<AndroidBoard.AndroidStudio_ARM: 5>"
  | .AndroidStudio_ARM64 => "<AndroidBoard.AndroidStudio_ARM64: 6>"
  | .AndroidStudio_X64 => "<AndroidBoard.AndroidStudio_X64: 7>"
  | .AndroidStudio_X86 => "<AndroidBoard.AndroidStudio_X86: 8>"

/-- `AndroidBoard.TargetCpuName`, with the final `raise` of the source kept as
an error result. -/
def AndroidBoard.TargetCpuName (b : AndroidBoard) : Except String String :=
  if b = .ARM ∨ b = .AndroidStudio_ARM then .ok "arm"
  else if b = .ARM64 ∨ b = .AndroidStudio_ARM64 then .ok "arm64"
  else if b = .X64 ∨ b = .AndroidStudio_X64 then .ok "x64"
  else if b = .X86 ∨ b = .AndroidStudio_X86 then .ok "x86"
  else .error ("Unknown board type: " ++ b.pyRepr)

/-- `AndroidBoard.AbiName`; an exception from `TargetCpuName` propagates. -/
def AndroidBoard.AbiName (b : AndroidBoard) : Except String String := do
  let cpu ← b.TargetCpuName
  if cpu = "arm" then pure "armeabi-v7a"
  else if cpu = "arm64" then pure "arm64-v8a"
  else if cpu = "x64" then pure "x86_64"
  else if cpu = "x86" then pure "x86"
  else Except.error ("Unknown board type: " ++ b.pyRepr)

/-- `AndroidBoard.IsIde`. -/
def AndroidBoard.IsIde (b : AndroidBoard) : Bool :=
  decide (b = .AndroidStudio_ARM ∨ b = .AndroidStudio_ARM64 ∨
    b = .AndroidStudio_X64 ∨ b = .AndroidStudio_X86)

/-- The closed `AndroidApp` enumeration. -/
inductive AndroidApp where
  | CHIP_TOOL
  | CHIP_TEST
  | TV_SERVER
  | TV_CASTING_APP
  | JAVA_MATTER_CONTROLLER
deriving DecidableEq

/-- Python `repr` of an `AndroidApp` member. -/
def AndroidApp.pyRepr : AndroidApp → String
  | .CHIP_TOOL => "<AndroidApp.CHIP_TOOL: 1>"
  | .CHIP_TEST => "<AndroidApp.CHIP_TEST: 2>"
  | .TV_SERVER => "<AndroidApp.TV_SERVER: 3>"
  | .TV_CASTING_APP => "<AndroidApp.TV_CASTING_APP: 4>"
  | .JAVA_MATTER_CONTROLLER => "<AndroidApp.JAVA_MATTER_CONTROLLER: 5>"

/-- `AndroidApp.AppName`: the if/elif chain of the source has no branch for
`JAVA_MATTER_CONTROLLER`, which therefore reaches the final `raise`. -/
def AndroidApp.AppName (a : AndroidApp) : Except String String :=
  if a = .CHIP_TOOL then .ok "CHIPTool"
  else if a = .CHIP_TEST then .ok "CHIPTest"
  else if a = .TV_SERVER then .ok "tv-server"
  else if a = .TV_CASTING_APP then .ok "tv-casting"
  else .error ("Unknown app type: " ++ a.pyRepr)

/-- A value of the `gn_args` dictionary built by `AndroidBuilder.generate`. -/
inductive GnVal where
  | b (v : Bool)
  | s (v : String)
deriving DecidableEq

/-- `AndroidApp.AppGnArgs`. -/
def AndroidApp.AppGnArgs (a : AndroidApp) : List (String × GnVal) :=
  if a = .TV_SERVER ∨ a = .TV_CASTING_APP then
    [("chip_config_network_layer_ble", GnVal.b false)]
  else []

/-- `AndroidApp.ExampleName`. -/
def AndroidApp.ExampleName (a : AndroidApp) : Option String :=
  if a = .TV_SERVER then some "tv-app"
  else if a = .TV_CASTING_APP then some "tv-casting-app"
  else none

/-- `AndroidApp.Modules`. -/
def AndroidApp.Modules (a : AndroidApp) : Option (List String) :=
  if a = .TV_SERVER then some ["platform-app", "content-app"] else none

/-- The closed `AndroidProfile` enumeration. -/
inductive AndroidProfile where
  | RELEASE
  | DEBUG
deriving DecidableEq

/-- Python `repr` of an `AndroidProfile` member. -/
def AndroidProfile.pyRepr : AndroidProfile → String
  | .RELEASE => "<AndroidProfile.RELEASE: 1>"
  | .DEBUG => "<AndroidProfile.DEBUG: 2>"

/-- The `AndroidProfile.ProfileName` property. -/
def AndroidProfile.ProfileName (p : AndroidProfile) : Except String String :=
  if p = .RELEASE then .ok "release"
  else if p = .DEBUG then .ok "debug"
  else .error ("Unknown profile type: " ++ p.pyRepr)

/-- The state an `AndroidBuilder` holds when `generate`/`build_outputs` run:
the constructor arguments plus the derived output directory (set by the
builder base class, which is outside this fragment). -/
structure AndroidBuilderState where
  root : String
  board : AndroidBoard
  app : AndroidApp
  profile : AndroidProfile
  output_dir : String

/-- `AndroidBuilder.validate_build_environment`, over the environment mapping
and the filesystem record. -/
def validateBuildEnvironment (env : String → Option String) (fs : Fs) : Except String Unit :=
  match env "ANDROID_NDK_HOME" with
  | none => .error "Environment ANDROID_NDK_HOME missing, cannot build android libraries"
  | some _ =>
    match env "ANDROID_HOME" with
    | none => .error "Environment ANDROID_HOME missing, cannot build android libraries"
    | some androidHome =>
      let sdkManager := pathJoin (pathJoin (pathJoin androidHome "tools") "bin") "sdkmanager"
      let newSdkManager :=
        pathJoin (pathJoin (pathJoin (pathJoin androidHome "cmdline-tools") "latest") "bin")
          "sdkmanager"
      if !(fs.isfile sdkManager && fs.accessX sdkManager) &&
          !(fs.isfile newSdkManager && fs.accessX newSdkManager) then
        .error ("'" ++ sdkManager ++ "' and '" ++ newSdkManager ++
          "' is not executable by the current user")
      else
        let licenses := pathJoin androidHome "licenses"
        if !fs.pathExists licenses then
          if !fs.accessW androidHome then
            .error ("'" ++ androidHome ++
              "' is NOT writable by the current user (needed to create licenses folder for accept)")
          else .ok ()
        else if !fs.accessW licenses then
          .error ("'" ++ licenses ++ "' is NOT writable by the current user (needed to accept licenses)")
        else .ok ()

/-- The character class of `shlex.quote`'s `_find_unsafe` regular expression
(ASCII word characters plus `@` `%` `+` `=` `:` `,` `.` `/` and `-`):
characters that do NOT force quoting. -/
def shlexSafeChar (c : Char) : Bool :=
  c.isAlphanum || c = '_' || c = '@' || c = '%' || c = '+' || c = '=' ||
    c = ':' || c = ',' || c = '.' || c = '/' || c = '-'

/-- Python `shlex.quote`. -/
def shlexQuote (s : String) : String :=
  if s = "" then "''"
  else if s.data.all shlexSafeChar then s
  else "'" ++ (s.replace "'" "'\"'\"'") ++ "'"

/-- One iteration of the serialization loop of `AndroidBuilder.generate`:
`args_str += f"{key}=true " if value else f"{key}=false "` for booleans and
`args_str += f'{key}="{shlex.quote(value)}" '` otherwise. -/
def serializeGnArg (key : String) : GnVal → String
  | .b true => key ++ "=true "
  | .b false => key ++ "=false "
  | .s v => key ++ "=\"" ++ shlexQuote v ++ "\" "

/-- The full `args_str` accumulated over the `gn_args` dictionary. -/
def gnArgsString (gnArgs : List (String × GnVal)) : String :=
  gnArgs.foldl (fun argsStr kv => argsStr ++ serializeGnArg kv.1 kv.2) ""

/-- The first command `AndroidBuilder.generate` issues. -/
def setUpAndroidDepsCmd : List String :=
  ["python3", "third_party/android_deps/set_up_android_deps.py"]

/-- The second command `AndroidBuilder.generate` issues. -/
def setUpJavaDepsCmd : List String :=
  ["third_party/java_deps/set_up_java_deps.sh"]

/-- `AndroidBuilder.generate`: the list of commands handed to the execution
delegate, or the raised error.  Modelled from the spec: `self._Execute`
records its command-argument list (the execution delegate either executes or
records commands), and `self._runner.dry_run` is the `dryRun` argument. -/
def androidGenerate (env : String → Option String) (fs : Fs) (dryRun : Bool)
    (st : AndroidBuilderState) : Except String (List (List String)) :=
  let cmds0 := [setUpAndroidDepsCmd, setUpJavaDepsCmd]
  if !fs.pathExists st.output_dir then do
    if !dryRun then validateBuildEnvironment env fs else pure ()
    let cpu ← st.board.TargetCpuName
    let ndk ← match env "ANDROID_NDK_HOME" with
      | some v => Except.ok v
      | none => Except.error "KeyError: ANDROID_NDK_HOME"
    let sdk ← match env "ANDROID_HOME" with
      | some v => Except.ok v
      | none => Except.error "KeyError: ANDROID_HOME"
    let gnArgs := [("target_os", GnVal.s "android"), ("target_cpu", GnVal.s cpu)]
    let gnArgs := dictInsert gnArgs "android_ndk_root" (GnVal.s ndk)
    let gnArgs := dictInsert gnArgs "android_sdk_root" (GnVal.s sdk)
    let gnArgs :=
      if st.profile ≠ AndroidProfile.DEBUG then dictInsert gnArgs "is_debug" (GnVal.b false)
      else gnArgs
    let gnArgs := st.app.AppGnArgs.foldl (fun d kv => dictInsert d kv.1 kv.2) gnArgs
    let args := "--args=" ++ gnArgsString gnArgs
    let gnGen := ["gn", "gen", "--check", "--fail-on-unused-args", st.output_dir, args]
    let gnGen :=
      match st.app.ExampleName with
      | some exampleName => gnGen ++ ["--root=" ++ st.root ++ "/examples/" ++ exampleName ++ "/android/"]
      | none => gnGen
    let gnGen :=
      if st.board.IsIde then
        gnGen ++ ["--ide=json", "--json-ide-script=//scripts/examples/gn_to_cmakelists.py"]
      else gnGen
    let newSdkManager :=
      pathJoin (pathJoin (pathJoin (pathJoin sdk "cmdline-tools") "latest") "bin") "sdkmanager"
    let licenseCmd :=
      if fs.isfile newSdkManager && fs.accessX newSdkManager then
        ["bash", "-c", "yes | " ++ newSdkManager ++ " --licenses >/dev/null"]
      else
        let sdkManager := pathJoin (pathJoin (pathJoin sdk "tools") "bin") "sdkmanager"
        ["bash", "-c", "yes | " ++ sdkManager ++ " --licenses >/dev/null"]
    pure (cmds0 ++ [gnGen, licenseCmd])
  else
    .ok cmds0

/-- `AndroidBuilder.build_outputs`: the artifact-label-to-path mapping.  The
`Fs` argument mirrors the builder's runtime environment; the source consults
none of it in this method. -/
def androidBuildOutputs (fs : Fs) (st : AndroidBuilderState) :
    Except String (List (String × String)) :=
  if st.board.IsIde then do
    let appName ← st.app.AppName
    pure [(appName ++ "-debug.apk",
      pathJoin (pathJoin (pathJoin st.root "examples/android") appName)
        "app/build/outputs/apk/debug/app-debug.apk")]
  else
    match st.app.ExampleName with
    | some _ =>
      if st.app = .TV_SERVER then
        .ok [("tv-sever-platform-app-debug.apk",
            pathJoin (pathJoin (pathJoin (pathJoin (pathJoin st.output_dir "platform-app")
              "outputs") "apk") "debug") "platform-app-debug.apk"),
          ("tv-sever-content-app-debug.apk",
            pathJoin (pathJoin (pathJoin (pathJoin (pathJoin st.output_dir "content-app")
              "outputs") "apk") "debug") "content-app-debug.apk")]
      else do
        let appName ← st.app.AppName
        pure [(appName ++ "app-debug.apk",
          pathJoin (pathJoin (pathJoin (pathJoin st.output_dir "outputs") "apk") "debug")
            "app-debug.apk")]
    | none => do
      let appName ← st.app.AppName
      let abi ← st.board.AbiName
      pure [(appName ++ "app-debug.apk",
          pathJoin (pathJoin (pathJoin (pathJoin st.output_dir "outputs") "apk") "debug")
            "app-debug.apk"),
        ("CHIPController.jar",
          pathJoin (pathJoin st.output_dir "lib") "src/controller/java/CHIPController.jar"),
        ("AndroidPlatform.jar",
          pathJoin (pathJoin st.output_dir "lib") "src/platform/android/AndroidPlatform.jar"),
        ("SetupPayloadParser.jar",
          pathJoin (pathJoin st.output_dir "lib") "src/setup_payload/java/SetupPayloadParser.jar"),
        ("jni/" ++ abi ++ "/libSetupPayloadParser.so",
          pathJoin (pathJoin (pathJoin (pathJoin st.output_dir "lib") "jni") abi)
            "libSetupPayloadParser.so"),
        ("jni/" ++ abi ++ "/libCHIPController.so",
          pathJoin (pathJoin (pathJoin (pathJoin st.output_dir "lib") "jni") abi)
            "libCHIPController.so"),
        ("jni/" ++ abi ++ "/libc++_shared.so",
          pathJoin (pathJoin (pathJoin (pathJoin st.output_dir "lib") "jni") abi)
            "libc++_shared.so")]

/-! ### Bouffalolab builder (`bouffalolab.py`) -/

/-- The closed `BouffalolabApp` enumeration. -/
inductive BouffalolabApp where
  | LIGHT
deriving DecidableEq

/-- Python `repr` of a `BouffalolabApp` member. -/
def BouffalolabApp.pyRepr : BouffalolabApp → String
  | .LIGHT => "<BouffalolabApp.LIGHT: 1>"

/-- `BouffalolabApp.ExampleName`. -/
def BouffalolabApp.ExampleName (a : BouffalolabApp) : Except String String :=
  if a = .LIGHT then .ok "lighting-app"
  else .error ("Unknown app type: " ++ a.pyRepr)

/-- `BouffalolabApp.AppNamePrefix`. -/
def BouffalolabApp.AppNamePrefix (a : BouffalolabApp) (chipName : String) :
    Except String String :=
  if a = .LIGHT then .ok ("chip-" ++ chipName ++ "-lighting-example")
  else .error ("Unknown app type: " ++ a.pyRepr)

/-- `BouffalolabApp.FlashBundleName`. -/
def BouffalolabApp.FlashBundleName (a : BouffalolabApp) : Except String String :=
  if a = .LIGHT then .ok "lighting_app.flashbundle.txt"
  else .error ("Unknown app type: " ++ a.pyRepr)

/-- The closed `BouffalolabBoard` enumeration. -/
inductive BouffalolabBoard where
  | BL602_IoT_Matter_V1
  | BL602_IOT_DVK_3S
  | BL602_NIGHT_LIGHT
  | XT_ZB6_DevKit
  | BL706_IoT_DVK
  | BL706_NIGHT_LIGHT
deriving DecidableEq

/-- Python `repr` of a `BouffalolabBoard` member. -/
def BouffalolabBoard.pyRepr : BouffalolabBoard → String
  | .BL602_IoT_Matter_V1 => "<BouffalolabBoard.BL602_IoT_Matter_V1: 1>"
  | .BL602_IOT_DVK_3S => "<BouffalolabBoard.BL602_IOT_DVK_3S: 2>"
  | .BL602_NIGHT_LIGHT => "<BouffalolabBoard.BL602_NIGHT_LIGHT: 3>"
  | .XT_ZB6_DevKit => "<BouffalolabBoard.XT_ZB6_DevKit: 4>"
  | .BL706_IoT_DVK => "<BouffalolabBoard.BL706_IoT_DVK: 5>"
  | .BL706_NIGHT_LIGHT => "<BouffalolabBoard.BL706_NIGHT_LIGHT: 6>"

/-- `BouffalolabBoard.GnArgName`, with the final `raise` of the source kept as
an error result. -/
def BouffalolabBoard.GnArgName (b : BouffalolabBoard) : Except String String :=
  if b = .BL602_IoT_Matter_V1 then .ok "BL602-IoT-Matter-V1"
  else if b = .BL602_IOT_DVK_3S then .ok "BL602-IOT-DVK-3S"
  else if b = .BL602_NIGHT_LIGHT then .ok "BL602-NIGHT-LIGHT"
  else if b = .XT_ZB6_DevKit then .ok "XT-ZB6-DevKit"
  else if b = .BL706_IoT_DVK then .ok "BL706-IoT-DVK"
  else if b = .BL706_NIGHT_LIGHT then .ok "BL706-NIGHT-LIGHT"
  else .error ("Unknown board #: " ++ b.pyRepr)

/-- The distinct exceptions `BouffalolabBuilder.__init__` can raise: an
unknown-enum error out of an accessor, the USB-CDC rejection, or the
re-raised `KeyError` for a missing `BOUFFALOLAB_SDK_ROOT`. -/
inductive BInitError where
  | appError (msg : String)
  | cdcNotSupported (msg : String)
  | envKeyError (key : String)
deriving DecidableEq

/-- `BouffalolabBuilder.__init__`: the `argsOpt` list the constructor leaves
behind, or the raised exception.  `scriptDir` stands for
`os.path.split(os.path.realpath(__file__))[0]`, an absolute directory that
`os.path.join` therefore substitutes for `root`. -/
def bouffalolabInit (env : String → Option String) (scriptDir : String)
    (app : BouffalolabApp) (board : BouffalolabBoard) (enable_rpcs : Bool)
    (module_type : String) (baudrate : Nat) (enable_shell : Bool) (enable_cdc : Bool) :
    Except BInitError (List String) := do
  let bouffalo_chip := if strContainsSub "BL70" module_type.data then "bl702" else "bl602"
  let _exampleName ← (app.ExampleName).mapError BInitError.appError
  let toolchain := pathJoin scriptDir "../../../config/bouffalolab/toolchain"
  let argsOpt : List String := ["custom_toolchain=\"" ++ toolchain ++ ":riscv_gcc\""]
  let gnName ← (board.GnArgName).mapError BInitError.appError
  let argsOpt := argsOpt ++ ["board=\"" ++ gnName ++ "\""]
  let argsOpt := argsOpt ++ ["baudrate=\"" ++ toString baudrate ++ "\""]
  let argsOpt :=
    if bouffalo_chip = "bl702" then argsOpt ++ ["module_type=\"" ++ module_type ++ "\""]
    else argsOpt
  let argsOpt ←
    if enable_cdc then
      if bouffalo_chip ≠ "bl702" then
        Except.error (BInitError.cdcNotSupported
          ("Chip " ++ bouffalo_chip ++ " does NOT support USB CDC"))
      else pure (argsOpt ++ ["enable_cdc_module=true"])
    else pure argsOpt
  let argsOpt :=
    if enable_rpcs then argsOpt ++ ["import(\"//with_pw_rpc.gni\")"]
    else if enable_shell then argsOpt ++ ["chip_build_libshell=true"]
    else argsOpt
  match env "BOUFFALOLAB_SDK_ROOT" with
  | some sdkRoot => pure (argsOpt ++ ["bouffalolab_sdk_root=\"" ++ sdkRoot ++ "\""])
  | none => Except.error (BInitError.envKeyError "BOUFFALOLAB_SDK_ROOT")

/-- The state a `BouffalolabBuilder` holds when `build_outputs` runs. -/
structure BouffalolabState where
  chip_name : String
  app : BouffalolabApp
  output_dir : String

/-- `BouffalolabBuilder.build_outputs`.  The `Fs` argument mirrors the
builder's runtime environment; the source consults none of it here. -/
def bouffalolabBuildOutputs (fs : Fs) (st : BouffalolabState) :
    Except String (List (String × String)) := do
  let p ← st.app.AppNamePrefix st.chip_name
  pure [(p ++ ".out", pathJoin st.output_dir (p ++ ".out")),
    (p ++ ".out.map", pathJoin st.output_dir (p ++ ".out.map"))]

/-! ### IMX builder (`imx.py`) -/

/-- The closed `IMXApp` enumeration. -/
inductive IMXApp where
  | CHIP_TOOL
  | LIGHT
  | THERMOSTAT
  | ALL_CLUSTERS
  | ALL_CLUSTERS_MINIMAL
  | OTA_PROVIDER
deriving DecidableEq

/-- `IMXApp.OutputNames` (the generator's yields, collected in order). -/
def IMXApp.OutputNames : IMXApp → List String
  | .CHIP_TOOL => ["chip-tool", "chip-tool.map"]
  | .LIGHT => ["chip-lighting-app", "chip-lighting-app.map"]
  | .THERMOSTAT => ["thermostat-app", "thermostat-app.map"]
  | .ALL_CLUSTERS => ["chip-all-clusters-app", "chip-all-clusters-app.map"]
  | .ALL_CLUSTERS_MINIMAL => ["chip-all-clusters-minimal-app", "chip-all-clusters-minimal-app.map"]
  | .OTA_PROVIDER => ["chip-ota-provider-app", "chip-ota-provider-app.map"]

/-- The state an `IMXBuilder` holds when `GnBuildArgs`/`build_outputs` run. -/
structure IMXState where
  app : IMXApp
  output_dir : String
  release : Bool

/-- `IMXBuilder.build_outputs`: for each output name, if the path is a
directory the files found by walking it are recorded, otherwise the name
itself maps to its expected path — no check that the file exists is made in
that branch. -/
def imxBuildOutputs (fs : Fs) (st : IMXState) : List (String × String) :=
  st.app.OutputNames.foldl
    (fun outputs name =>
      let path := pathJoin st.output_dir name
      if fs.isdir path then
        (fs.walk path).foldl (fun outs rf => dictInsert outs rf.2 (pathJoin rf.1 rf.2)) outputs
      else
        dictInsert outputs name (pathJoin st.output_dir name))
    []

/-- `IMXBuilder.SysRootPath`. -/
def sysRootPath (env : String → Option String) (name : String) : Except String String :=
  match env name with
  | none => .error ("Missing environment variable \"" ++ name ++ "\"")
  | some v => .ok v

/-- Leading-whitespace stripping (the regular expression's leading zero-or-more
whitespace). -/
def dropWs : List Char → List Char
  | [] => []
  | c :: rest => if c.isWhitespace then dropWs rest else c :: rest

/-- The match of `re.match(r'^\s*export\s+NAME=(.*)', line)` for a given
`NAME`: optional leading whitespace, the word `export`, at least one
whitespace character, then `NAME=`; the returned string is the capture group
(the rest of the line). -/
def matchExport (varName : String) (line : String) : Option String :=
  let cs := dropWs line.data
  if ("export".data).isPrefixOf cs then
    let rest := cs.drop 6
    match rest with
    | [] => none
    | c :: _ =>
      if c.isWhitespace then
        let rest2 := dropWs rest
        if ((varName ++ "=").data).isPrefixOf rest2 then
          some (String.mk (rest2.drop (varName.length + 1)))
        else none
      else none
  else none

/-- `shlex.split(s)[0]` specialized to the first token: POSIX word splitting
with single- and double-quote grouping (quotes removed); `none` when the
split produces no token or a quote is unclosed.  Backslash escapes, which the
toolchain setup scripts parsed here do not use in the exported values, are
read as ordinary characters. -/
def shlexFirstTokenAux : List Char → Bool → Bool → Bool → List Char → Option String
  | [], inS, inD, started, acc =>
    if inS || inD then none
    else if started then some (String.mk acc.reverse)
    else none
  | c :: rest, inS, inD, started, acc =>
    if inS then
      if c = '\'' then shlexFirstTokenAux rest false false true acc
      else shlexFirstTokenAux rest true false true (c :: acc)
    else if inD then
      if c = '"' then shlexFirstTokenAux rest false false true acc
      else shlexFirstTokenAux rest false true true (c :: acc)
    else if c.isWhitespace then
      if started then some (String.mk acc.reverse)
      else shlexFirstTokenAux rest false false false acc
    else if c = '\'' then shlexFirstTokenAux rest true false true acc
    else if c = '"' then shlexFirstTokenAux rest false true true acc
    else shlexFirstTokenAux rest false false true (c :: acc)

/-- First token of `shlex.split` on a string. -/
def shlexFirstToken (s : String) : Option String :=
  shlexFirstTokenAux s.data false false false []

/-- The local variables the setup-script scanning loop of
`IMXBuilder.GnBuildArgs` may leave bound (`none` models a name Python never
bound, caught later by the `try ... except NameError` checks). -/
structure ToolchainScan where
  sdk_target_sysroot : Option String
  cc : Option String
  cxx : Option String
  target_cpu : Option String
  arm_arch : Option String
  cross_compile : Option String
deriving DecidableEq

/-- The initial scan state: no variable bound yet. -/
def toolchainScanInit : ToolchainScan := ⟨none, none, none, none, none, none⟩

/-- One iteration of the line loop of `IMXBuilder.GnBuildArgs`: the four
export patterns are tried in the source's order, an `ARCH` value other than
`arm64` or `arm` raises immediately, and `shlex.split(...)[0]` on an empty
split raises `IndexError`. -/
def scanSetupLine (st : ToolchainScan) (line : String) : Except String ToolchainScan := do
  let st ←
    match matchExport "SDKTARGETSYSROOT" line with
    | some v =>
      match shlexFirstToken v with
      | some tok => pure { st with sdk_target_sysroot := some tok }
      | none => Except.error "IndexError: list index out of range"
    | none => pure st
  let st ←
    match matchExport "CC" line with
    | some v =>
      match shlexFirstToken v with
      | some tok => pure { st with cc := some tok }
      | none => Except.error "IndexError: list index out of range"
    | none => pure st
  let st ←
    match matchExport "CXX" line with
    | some v =>
      match shlexFirstToken v with
      | some tok => pure { st with cxx := some tok }
      | none => Except.error "IndexError: list index out of range"
    | none => pure st
  let st ←
    match matchExport "ARCH" line with
    | some v =>
      match shlexFirstToken v with
      | some tok =>
        if tok = "arm64" then
          pure { st with target_cpu := some tok, arm_arch := some "armv8-a" }
        else if tok = "arm" then
          pure { st with target_cpu := some tok, arm_arch := some "armv7ve" }
        else
          Except.error "ARCH should be arm64 or arm in the SDK environment setup script."
      | none => Except.error "IndexError: list index out of range"
    | none => pure st
  match matchExport "CROSS_COMPILE" line with
  | some v =>
    match shlexFirstToken v with
    | some tok => pure { st with cross_compile := some (tok.dropRight 1) }
    | none => Except.error "IndexError: list index out of range"
  | none => pure st

/-- The whole scanning loop over the setup script's lines. -/
def scanSetupLines (lines : List String) : Except String ToolchainScan :=
  lines.foldlM scanSetupLine toolchainScanInit

/-- The toolchain values `GnBuildArgs` needs after a successful scan. -/
structure ImxToolchain where
  target_cpu : String
  arm_arch : String
  sdk_target_sysroot : String
  cross_compile : String
  cc : String
  cxx : String
deriving DecidableEq

/-- The `try ... except NameError` checks following the scanning loop, in the
source's order: missing `SDKTARGETSYSROOT` first, then missing `CC`/`CXX`
(after which both are substituted), then missing `ARCH`/`CROSS_COMPILE`. -/
def imxChecksAfterScan (st : ToolchainScan) : Except String ImxToolchain :=
  match st.sdk_target_sysroot with
  | none => .error "SDKTARGETSYSROOT is not found in the SDK environment setup script."
  | some sysroot =>
    match st.cc, st.cxx with
    | some cc0, some cxx0 =>
      let cc1 := cc0.replace "$SDKTARGETSYSROOT" sysroot
      let cxx1 := cxx0.replace "$SDKTARGETSYSROOT" sysroot
      match st.target_cpu, st.cross_compile with
      | some cpu, some cross =>
        match st.arm_arch with
        | some arch => .ok ⟨cpu, arch, sysroot, cross, cc1, cxx1⟩
        | none => .error "NameError: name arm_arch is not defined"
      | _, _ => .error "ARCH and/or CROSS_COMPILE are not found in the SDK environment setup script."
    | _, _ => .error "CC and/or CXX are not found in the SDK environment setup script."

/-- The hardcoded CI defaults of `GnBuildArgs` when `IMX_SDK_ROOT` holds the
literal string `IMX_SDK_ROOT`. -/
def imxDefaultToolchain (sdkRoot : String) : ImxToolchain :=
  ⟨"arm64", "armv8-a", pathJoin sdkRoot "sysroots/cortexa53-crypto-poky-linux",
    "aarch64-poky-linux", "aarch64-poky-linux-gcc", "aarch64-poky-linux-g++"⟩

/-- The final GN argument list of `IMXBuilder.GnBuildArgs`. -/
def imxArgsFromToolchain (sdkRoot : String) (tc : ImxToolchain) (release : Bool) :
    List String :=
  let args := [
    "treat_warnings_as_errors=false",
    "target_os=\"linux\"",
    "target_cpu=\"" ++ tc.target_cpu ++ "\"",
    "arm_arch=\"" ++ tc.arm_arch ++ "\"",
    "import(\"//build_overrides/build.gni\")",
    "custom_toolchain=\"${build_root}/toolchain/custom\"",
    "sysroot=\"" ++ tc.sdk_target_sysroot ++ "\"",
    "target_cflags=[ \"-DCHIP_DEVICE_CONFIG_WIFI_STATION_IF_NAME=\\\"mlan0\\\"\", \"-DCHIP_DEVICE_CONFIG_LINUX_DHCPC_CMD=\\\"udhcpc -b -i %s \\\"\" ]",
    "target_cc=\"" ++ sdkRoot ++ "/sysroots/x86_64-pokysdk-linux/usr/bin/" ++
      tc.cross_compile ++ "/" ++ tc.cc ++ "\"",
    "target_cxx=\"" ++ sdkRoot ++ "/sysroots/x86_64-pokysdk-linux/usr/bin/" ++
      tc.cross_compile ++ "/" ++ tc.cxx ++ "\"",
    "target_ar=\"" ++ sdkRoot ++ "/sysroots/x86_64-pokysdk-linux/usr/bin/" ++
      tc.cross_compile ++ "/" ++ tc.cross_compile ++ "-ar\""]
  if release then args ++ ["is_debug=false"] else args ++ ["optimize_debug=true"]

/-- `IMXBuilder.GnBuildArgs`.  `os.listdir` raising `FileNotFoundError` is
`fs.listdir = none`; the loop with `break` keeps the first entry starting
with `environment-setup-`. -/
def imxGnBuildArgs (env : String → Option String) (fs : Fs) (release : Bool) :
    Except String (List String) := do
  let sdkRoot ← sysRootPath env "IMX_SDK_ROOT"
  match fs.listdir sdkRoot with
  | none =>
    if sdkRoot ≠ "IMX_SDK_ROOT" then
      Except.error "the value of env IMX_SDK_ROOT is not a valid path."
    else
      pure (imxArgsFromToolchain sdkRoot (imxDefaultToolchain sdkRoot) release)
  | some entries =>
    match entries.find? (fun entry => ("environment-setup-".data).isPrefixOf entry.data) with
    | none =>
      Except.error
        "The SDK environment setup script is not found, make sure the env IMX_SDK_ROOT is correctly set."
    | some envSetupScript => do
      let lines := fs.readLines (pathJoin sdkRoot envSetupScript)
      let st ← scanSetupLines lines
      let tc ← imxChecksAfterScan st
      pure (imxArgsFromToolchain sdkRoot tc release)

/-! ### Claims about the bridge client -/

/-- `Except.map` keeps the error status. -/
theorem exIsError_map {ε α β : Type} (f : α → β) (e : Except ε α) :
    exIsError (e.map f) = exIsError e := by
  cases e <;> rfl

/-- `exIsError` on a raised exception. -/
theorem exIsError_error {ε α : Type} (e : ε) :
    exIsError (Except.error e : Except ε α) = true := rfl

/-- `exIsError` on a normal return. -/
theorem exIsError_ok {ε α : Type} (a : α) :
    exIsError (Except.ok a : Except ε α) = false := rfl

/-- The start-options loop raises exactly on an unrecognized parameter name. -/
theorem startOptionsLoop_error_iff (items : List ReqItem) :
    exIsError (startOptionsLoop items) = true ↔
      ∃ item ∈ items, ¬ startRecognized item.name := by
  induction items with
  | nil => simp [startOptionsLoop, exIsError_ok]
  | cons item rest ih =>
    simp only [startOptionsLoop]
    split_ifs with h1 h2 h3 h4 h5 h6 h7 <;>
      simp_all [exIsError_map, exIsError_error, exIsError_ok, startRecognized]

/-- C1: for a Bridge `start` request with parameters `discriminator = 1234`
and `port = 5540`, exactly one remote call is issued: `proxy.start` with the
default registration key `default` and the option list
`["--discriminator", "1234", "--secured-device-port", "5540"]`, in that
order. -/
theorem bridge_start_discriminator_port_single_call :
    AccessoryServerBridge.start
        ⟨some [⟨"discriminator", .int 1234⟩, ⟨"port", .int 5540⟩]⟩ =
      .ok [RemoteCall.start (some defaultKey)
        ["--discriminator", "1234", "--secured-device-port", "5540"]] := by
  rfl

/-- C2 counterexample: a `stop` request whose only parameter has the
unrecognized name `bogusKey` does not raise; it issues the one remote
`stop` call with the default registration key. -/
theorem bridge_stop_ignores_unknown_key_counterexample :
    AccessoryServerBridge.stop ⟨some [⟨"bogusKey", .str "x"⟩]⟩ =
      .ok [RemoteCall.stop (some defaultKey)] := by
  rfl

/-- C2 amended: only the `start` operation checks parameter names — it raises
`Unknown key: ...` exactly when the request holds a name outside its
recognized set, and on success issues a single `start` call; the six other
operations never inspect unrecognized names and always issue exactly their
one remote call. -/
theorem bridge_unknown_key_only_start_raises :
    (∀ req : Request,
      exIsError (AccessoryServerBridge.start req) = true ↔
        ∃ item ∈ reqItems req, ¬ startRecognized item.name) ∧
    (∀ (req : Request) (calls : List RemoteCall),
      AccessoryServerBridge.start req = .ok calls →
        ∃ k opts, calls = [RemoteCall.start k opts]) ∧
    (∀ req : Request, AccessoryServerBridge.stop req =
      .ok [RemoteCall.stop (getOption req "registerKey" (some defaultKey))]) ∧
    (∀ req : Request, AccessoryServerBridge.reboot req =
      .ok [RemoteCall.reboot (getOption req "registerKey" (some defaultKey))]) ∧
    (∀ req : Request, AccessoryServerBridge.factoryReset req =
      .ok [RemoteCall.factoryReset (getOption req "registerKey" (some defaultKey))]) ∧
    (∀ req : Request, AccessoryServerBridge.waitForMessage req =
      .ok [RemoteCall.waitForMessage (getOption req "registerKey" (some defaultKey))
        [getOption req "message" none]]) ∧
    (∀ req : Request, AccessoryServerBridge.createOtaImage req =
      .ok [RemoteCall.createOtaImage (getOption req "otaImageFilePath" none)
        (getOption req "rawImageFilePath" none) (getOption req "rawImageContent" none)]) ∧
    (∀ req : Request, AccessoryServerBridge.compareFiles req =
      .ok [RemoteCall.compareFiles (getOption req "file1" none)
        (getOption req "file2" none)]) := by
  refine ⟨?_, ?_, fun _ => rfl, fun _ => rfl, fun _ => rfl, fun _ => rfl, fun _ => rfl,
    fun _ => rfl⟩
  · intro req
    obtain ⟨args⟩ := req
    cases args with
    | none => simp [AccessoryServerBridge.start, getStartOptions, reqItems, exIsError]
    | some values =>
      rw [← startOptionsLoop_error_iff]
      cases hl : startOptionsLoop values <;>
        simp [AccessoryServerBridge.start, getStartOptions, reqItems, exIsError, hl]
  · intro req calls h
    unfold AccessoryServerBridge.start at h
    cases hl : getStartOptions req <;> rw [hl] at h
    · exact absurd h (by simp)
    · exact ⟨_, _, by injection h with h; exact h.symm⟩

/-- C2 witness: the amended theorem applied at concrete requests — `start`
raises on the unrecognized name `bogusKey`, `stop` ignores it and issues its
one call, and a successful `start` issues a single `start` call. -/
theorem bridge_unknown_key_only_start_raises_witness :
    exIsError (AccessoryServerBridge.start ⟨some [⟨"bogusKey", .str "x"⟩]⟩) = true ∧
    AccessoryServerBridge.stop ⟨some [⟨"bogusKey", .str "x"⟩]⟩ =
      .ok [RemoteCall.stop (getOption ⟨some [⟨"bogusKey", .str "x"⟩]⟩ "registerKey"
        (some defaultKey))] ∧
    (∃ k opts, [RemoteCall.start (some defaultKey) ([] : List String)] =
      [RemoteCall.start k opts]) := by
  refine ⟨?_, bridge_unknown_key_only_start_raises.2.2.1 _, ?_⟩
  · exact (bridge_unknown_key_only_start_raises.1 _).mpr
      ⟨⟨"bogusKey", .str "x"⟩, by simp [reqItems], by decide⟩
  · exact bridge_unknown_key_only_start_raises.2.1 ⟨some []⟩ _ (by rfl)

/-! ### Claims about the target enumerations -/

/-- C6 counterexample: `AndroidApp.AppName` raises `Unknown app type` for
`JAVA_MATTER_CONTROLLER`, a member of the closed `AndroidApp` enumeration. -/
theorem androidApp_appName_java_matter_controller_raises :
    AndroidApp.AppName AndroidApp.JAVA_MATTER_CONTROLLER =
      .error "Unknown app type: <AndroidApp.JAVA_MATTER_CONTROLLER: 5>" := by
  rfl

/-- C6 amended: every derived-string accessor resolves to a fixed string for
every member of its closed enumeration — except `AndroidApp.AppName`, which
resolves for `CHIP_TOOL`, `CHIP_TEST`, `TV_SERVER` and `TV_CASTING_APP` but
raises `Unknown app type` for the member `JAVA_MATTER_CONTROLLER`. -/
theorem enum_accessors_total_except_java_matter_controller :
    (∀ b : AndroidBoard, ∃ s, b.TargetCpuName = .ok s) ∧
    (∀ b : AndroidBoard, ∃ s, b.AbiName = .ok s) ∧
    (∀ p : AndroidProfile, ∃ s, p.ProfileName = .ok s) ∧
    (∀ b : BouffalolabBoard, ∃ s, b.GnArgName = .ok s) ∧
    (∀ a : AndroidApp, a ≠ AndroidApp.JAVA_MATTER_CONTROLLER → ∃ s, a.AppName = .ok s) ∧
    AndroidApp.AppName AndroidApp.JAVA_MATTER_CONTROLLER =
      .error "Unknown app type: <AndroidApp.JAVA_MATTER_CONTROLLER: 5>" := by
  refine ⟨fun b => ?_, fun b => ?_, fun p => ?_, fun b => ?_, fun a ha => ?_, rfl⟩
  · cases b <;> exact ⟨_, rfl⟩
  · cases b <;> exact ⟨_, rfl⟩
  · cases p <;> exact ⟨_, rfl⟩
  · cases b <;> exact ⟨_, rfl⟩
  · cases a <;> first
      | exact ⟨_, rfl⟩
      | exact absurd rfl ha

/-- C6 witness: the amended theorem applied at `CHIP_TOOL`, whose app name
resolves. -/
theorem enum_accessors_total_witness :
    AndroidApp.CHIP_TOOL ≠ AndroidApp.JAVA_MATTER_CONTROLLER ∧
      ∃ s, AndroidApp.AppName AndroidApp.CHIP_TOOL = .ok s := by
  exact ⟨by decide,
    enum_accessors_total_except_java_matter_controller.2.2.2.2.1 AndroidApp.CHIP_TOOL
      (by decide)⟩

/-! ### Claims about `AndroidBuilder.generate` serialization -/

/-- C5: in the `--args` string `AndroidBuilder.generate` constructs, a boolean
flag serializes as `key=true` / `key=false` and a string flag appears as
`key="..."` with the `shlex`-quoted value — in particular exactly as
`key="value"` whenever quoting leaves the value unchanged. -/
theorem gn_arg_serialization (key v : String) (hv : shlexQuote v = v) :
    serializeGnArg key (GnVal.b true) = key ++ "=true " ∧
    serializeGnArg key (GnVal.b false) = key ++ "=false " ∧
    serializeGnArg key (GnVal.s v) = key ++ "=\"" ++ shlexQuote v ++ "\" " ∧
    serializeGnArg key (GnVal.s v) = key ++ "=\"" ++ v ++ "\" " ∧
    gnArgsString [(key, GnVal.b true)] = key ++ "=true " := by
  refine ⟨rfl, rfl, rfl, ?_, ?_⟩
  · rw [serializeGnArg, hv]
  · simp [gnArgsString, serializeGnArg]

/-- C5 witness: the serialization theorem applied at the concrete flag
`target_os` with the safe value `android`. -/
theorem gn_arg_serialization_witness :
    shlexQuote "android" = "android" ∧
      serializeGnArg "target_os" (GnVal.s "android") = "target_os=\"android\" " := by
  exact ⟨by rfl, (gn_arg_serialization "target_os" "android" (by rfl)).2.2.2.1⟩

/-! ### Claims about `BouffalolabBuilder.__init__` -/

/-- C9: the Bouffalolab constructor raises `Chip bl602 does NOT support USB
CDC` whenever `enable_cdc` is true and `module_type` does not contain the
substring `BL70` (which selects the bl602 chip); with `enable_cdc` false the
CDC error is never raised, whatever the module type or environment. -/
theorem bouffalolab_cdc_rejected_on_bl602 (env : String → Option String)
    (scriptDir : String) (app : BouffalolabApp) (board : BouffalolabBoard)
    (enable_rpcs : Bool) (baudrate : Nat) (enable_shell : Bool) :
    (∀ module_type : String, strContainsSub "BL70" module_type.data = false →
      bouffalolabInit env scriptDir app board enable_rpcs module_type baudrate
          enable_shell true =
        .error (BInitError.cdcNotSupported "Chip bl602 does NOT support USB CDC")) ∧
    (∀ module_type msg : String,
      bouffalolabInit env scriptDir app board enable_rpcs module_type baudrate
          enable_shell false ≠ .error (BInitError.cdcNotSupported msg)) := by
  constructor
  · intro module_type hmt
    cases app
    cases board <;>
      simp [bouffalolabInit, hmt, BouffalolabApp.ExampleName, BouffalolabBoard.GnArgName,
        Except.mapError, bind, Except.bind]
  · intro module_type msg h
    cases app
    cases board <;>
      cases henv : env "BOUFFALOLAB_SDK_ROOT" <;>
        simp [bouffalolabInit, BouffalolabApp.ExampleName, BouffalolabBoard.GnArgName,
          Except.mapError, henv, bind, Except.bind, pure, Except.pure] at h

/-- C9 witness: the CDC theorem applied at a concrete bl602 configuration,
and the no-error side both at that configuration with `enable_cdc` false and
at the default bl702 module type `BL706C-22` (which contains `BL70`). -/
theorem bouffalolab_cdc_rejected_on_bl602_witness :
    bouffalolabInit (fun _ => none) "/chip/scripts/build/builders"
        BouffalolabApp.LIGHT BouffalolabBoard.BL602_IoT_Matter_V1 false "BL602" 2000000
        false true =
      .error (BInitError.cdcNotSupported "Chip bl602 does NOT support USB CDC") ∧
    bouffalolabInit (fun _ => none) "/chip/scripts/build/builders"
        BouffalolabApp.LIGHT BouffalolabBoard.BL602_IoT_Matter_V1 false "BL602" 2000000
        false false ≠
      .error (BInitError.cdcNotSupported "Chip bl602 does NOT support USB CDC") ∧
    bouffalolabInit (fun _ => none) "/chip/scripts/build/builders"
        BouffalolabApp.LIGHT BouffalolabBoard.BL706_IoT_DVK false "BL706C-22" 2000000
        false false ≠
      .error (BInitError.cdcNotSupported "Chip bl602 does NOT support USB CDC") := by
  have h1 := bouffalolab_cdc_rejected_on_bl602 (fun _ => none) "/chip/scripts/build/builders"
    BouffalolabApp.LIGHT BouffalolabBoard.BL602_IoT_Matter_V1 false 2000000 false
  have h2 := bouffalolab_cdc_rejected_on_bl602 (fun _ => none) "/chip/scripts/build/builders"
    BouffalolabApp.LIGHT BouffalolabBoard.BL706_IoT_DVK false 2000000 false
  exact ⟨h1.1 "BL602" (by decide), h1.2 "BL602" "Chip bl602 does NOT support USB CDC",
    h2.2 "BL706C-22" "Chip bl602 does NOT support USB CDC"⟩

/-! ### Claims about `IMXBuilder.GnBuildArgs` -/

/-- C10: when `IMX_SDK_ROOT` is set but `os.listdir` on its value raises
`FileNotFoundError`, `GnBuildArgs` raises `the value of env IMX_SDK_ROOT is
not a valid path.` unless the value is the literal string `IMX_SDK_ROOT`, in
which case the hardcoded defaults (target_cpu `arm64`, arm_arch `armv8-a`,
`aarch64-poky-linux` toolchain) are used and no setup script is read. -/
theorem imx_sdk_root_invalid_path (env : String → Option String) (fs : Fs)
    (release : Bool) (sdkRoot : String)
    (henv : env "IMX_SDK_ROOT" = some sdkRoot)
    (hls : fs.listdir sdkRoot = none) :
    (sdkRoot ≠ "IMX_SDK_ROOT" →
      imxGnBuildArgs env fs release =
        .error "the value of env IMX_SDK_ROOT is not a valid path.") ∧
    (sdkRoot = "IMX_SDK_ROOT" →
      imxGnBuildArgs env fs release =
        .ok (imxArgsFromToolchain "IMX_SDK_ROOT"
          ⟨"arm64", "armv8-a", "IMX_SDK_ROOT/sysroots/cortexa53-crypto-poky-linux",
            "aarch64-poky-linux", "aarch64-poky-linux-gcc", "aarch64-poky-linux-g++"⟩
          release)) := by
  constructor
  · intro hne
    simp [imxGnBuildArgs, sysRootPath, henv, hls, hne, bind, Except.bind]
  · intro heq
    subst heq
    simp [imxGnBuildArgs, sysRootPath, henv, hls, imxDefaultToolchain, pathJoin,
      bind, Except.bind, pure, Except.pure]

/-- C10 witness: the theorem applied at an invalid path value and at the
literal CI value. -/
theorem imx_sdk_root_invalid_path_witness :
    imxGnBuildArgs (fun n => if n = "IMX_SDK_ROOT" then some "/no/such/dir" else none)
        ⟨fun _ => false, fun _ => false, fun _ => false, fun _ => false, fun _ => false,
          fun _ => [], fun _ => none, fun _ => []⟩ false =
      .error "the value of env IMX_SDK_ROOT is not a valid path." ∧
    imxGnBuildArgs (fun n => if n = "IMX_SDK_ROOT" then some "IMX_SDK_ROOT" else none)
        ⟨fun _ => false, fun _ => false, fun _ => false, fun _ => false, fun _ => false,
          fun _ => [], fun _ => none, fun _ => []⟩ true =
      .ok (imxArgsFromToolchain "IMX_SDK_ROOT"
        ⟨"arm64", "armv8-a", "IMX_SDK_ROOT/sysroots/cortexa53-crypto-poky-linux",
          "aarch64-poky-linux", "aarch64-poky-linux-gcc", "aarch64-poky-linux-g++"⟩
        true) := by
  constructor
  · exact (imx_sdk_root_invalid_path _ _ false "/no/such/dir" (by rfl) (by rfl)).1
      (by decide)
  · exact (imx_sdk_root_invalid_path _ _ true "IMX_SDK_ROOT" (by rfl) (by rfl)).2 rfl

/-! ### Claims about `AndroidBuilder.validate_build_environment` -/

/-- C7: environment validation fails with a descriptive error when
`ANDROID_NDK_HOME` or `ANDROID_HOME` is absent, when neither `sdkmanager`
location is an executable file, when the `licenses` directory is absent and
`ANDROID_HOME` is not writable, and when `licenses` exists but is not
writable — each condition on its own. -/
theorem validate_build_environment_failures (env : String → Option String) (fs : Fs) :
    (env "ANDROID_NDK_HOME" = none →
      validateBuildEnvironment env fs =
        .error "Environment ANDROID_NDK_HOME missing, cannot build android libraries") ∧
    (∀ ndk, env "ANDROID_NDK_HOME" = some ndk → env "ANDROID_HOME" = none →
      validateBuildEnvironment env fs =
        .error "Environment ANDROID_HOME missing, cannot build android libraries") ∧
    (∀ ndk ah, env "ANDROID_NDK_HOME" = some ndk → env "ANDROID_HOME" = some ah →
      (fs.isfile (ah ++ "/tools/bin/sdkmanager") &&
        fs.accessX (ah ++ "/tools/bin/sdkmanager")) = false →
      (fs.isfile (ah ++ "/cmdline-tools/latest/bin/sdkmanager") &&
        fs.accessX (ah ++ "/cmdline-tools/latest/bin/sdkmanager")) = false →
      validateBuildEnvironment env fs =
        .error ("'" ++ ah ++ "/tools/bin/sdkmanager' and '" ++ ah ++
          "/cmdline-tools/latest/bin/sdkmanager' is not executable by the current user")) ∧
    (∀ ndk ah, env "ANDROID_NDK_HOME" = some ndk → env "ANDROID_HOME" = some ah →
      (fs.isfile (ah ++ "/tools/bin/sdkmanager") &&
        fs.accessX (ah ++ "/tools/bin/sdkmanager")) = true →
      fs.pathExists (ah ++ "/licenses") = false →
      fs.accessW ah = false →
      validateBuildEnvironment env fs =
        .error ("'" ++ ah ++
          "' is NOT writable by the current user (needed to create licenses folder for accept)")) ∧
    (∀ ndk ah, env "ANDROID_NDK_HOME" = some ndk → env "ANDROID_HOME" = some ah →
      (fs.isfile (ah ++ "/tools/bin/sdkmanager") &&
        fs.accessX (ah ++ "/tools/bin/sdkmanager")) = true →
      fs.pathExists (ah ++ "/licenses") = true →
      fs.accessW (ah ++ "/licenses") = false →
      validateBuildEnvironment env fs =
        .error ("'" ++ ah ++
          "/licenses' is NOT writable by the current user (needed to accept licenses)")) := by
  refine ⟨fun h1 => ?_, fun ndk h1 h2 => ?_, fun ndk ah h1 h2 h3 h4 => ?_,
    fun ndk ah h1 h2 h3 h4 h5 => ?_, fun ndk ah h1 h2 h3 h4 h5 => ?_⟩
  · simp [validateBuildEnvironment, h1]
  · simp [validateBuildEnvironment, h1, h2]
  · simp only [validateBuildEnvironment, h1, h2, pathJoin]
    rw [show ah ++ "/" ++ "tools" ++ "/" ++ "bin" ++ "/" ++ "sdkmanager" =
        ah ++ "/tools/bin/sdkmanager" by simp [String.append_assoc],
      show ah ++ "/" ++ "cmdline-tools" ++ "/" ++ "latest" ++ "/" ++ "bin" ++ "/" ++ "sdkmanager" =
        ah ++ "/cmdline-tools/latest/bin/sdkmanager" by simp [String.append_assoc],
      h3, h4]
    simp [String.append_assoc]
  · simp only [validateBuildEnvironment, h1, h2, pathJoin]
    rw [show ah ++ "/" ++ "tools" ++ "/" ++ "bin" ++ "/" ++ "sdkmanager" =
        ah ++ "/tools/bin/sdkmanager" by simp [String.append_assoc],
      show ah ++ "/" ++ "licenses" = ah ++ "/licenses" by simp [String.append_assoc], h3, h4, h5]
    simp
  · simp only [validateBuildEnvironment, h1, h2, pathJoin]
    rw [show ah ++ "/" ++ "tools" ++ "/" ++ "bin" ++ "/" ++ "sdkmanager" =
        ah ++ "/tools/bin/sdkmanager" by simp [String.append_assoc],
      show ah ++ "/" ++ "licenses" = ah ++ "/licenses" by simp [String.append_assoc], h3, h4, h5]
    simp [String.append_assoc]

/-- A filesystem state where nothing exists and nothing is permitted. -/
def fsAllFalse : Fs :=
  ⟨fun _ => false, fun _ => false, fun _ => false, fun _ => false, fun _ => false,
    fun _ => [], fun _ => none, fun _ => []⟩

/-- A filesystem state whose files are all present and executable but where
nothing exists as a directory and nothing is writable. -/
def fsExecNoWrite : Fs :=
  ⟨fun _ => false, fun _ => true, fun _ => true, fun _ => false, fun _ => false,
    fun _ => [], fun _ => none, fun _ => []⟩

/-- A filesystem state where everything exists and is executable but nothing
is writable. -/
def fsExistsNoWrite : Fs :=
  ⟨fun _ => true, fun _ => true, fun _ => true, fun _ => false, fun _ => false,
    fun _ => [], fun _ => none, fun _ => []⟩

/-- An environment with only `ANDROID_NDK_HOME` set. -/
def envNdkOnly : String → Option String :=
  fun n => if n = "ANDROID_NDK_HOME" then some "/ndk" else none

/-- An environment with `ANDROID_NDK_HOME` and `ANDROID_HOME` set. -/
def envNdkSdk : String → Option String :=
  fun n =>
    if n = "ANDROID_NDK_HOME" then some "/ndk"
    else if n = "ANDROID_HOME" then some "/sdk"
    else none

/-- C7 witness: the validation theorem applied at concrete states triggering
each of its five failure conditions independently. -/
theorem validate_build_environment_failures_witness :
    validateBuildEnvironment (fun _ => none) fsAllFalse =
      .error "Environment ANDROID_NDK_HOME missing, cannot build android libraries" ∧
    validateBuildEnvironment envNdkOnly fsAllFalse =
      .error "Environment ANDROID_HOME missing, cannot build android libraries" ∧
    validateBuildEnvironment envNdkSdk fsAllFalse =
      .error ("'" ++ "/sdk" ++ "/tools/bin/sdkmanager' and '" ++ "/sdk" ++
        "/cmdline-tools/latest/bin/sdkmanager' is not executable by the current user") ∧
    validateBuildEnvironment envNdkSdk fsExecNoWrite =
      .error ("'" ++ "/sdk" ++
        "' is NOT writable by the current user (needed to create licenses folder for accept)") ∧
    validateBuildEnvironment envNdkSdk fsExistsNoWrite =
      .error ("'" ++ "/sdk" ++
        "/licenses' is NOT writable by the current user (needed to accept licenses)") := by
  refine ⟨(validate_build_environment_failures (fun _ => none) fsAllFalse).1 rfl,
    (validate_build_environment_failures envNdkOnly fsAllFalse).2.1 "/ndk" rfl rfl,
    ?_, ?_, ?_⟩
  · have h := (validate_build_environment_failures envNdkSdk fsAllFalse).2.2.1
      "/ndk" "/sdk" rfl rfl (by rfl) (by rfl)
    simpa using h
  · have h := (validate_build_environment_failures envNdkSdk fsExecNoWrite).2.2.2.1
      "/ndk" "/sdk" rfl rfl (by rfl) (by rfl) (by rfl)
    simpa using h
  · have h := (validate_build_environment_failures envNdkSdk fsExistsNoWrite).2.2.2.2
      "/ndk" "/sdk" rfl rfl (by rfl) (by rfl) (by rfl)
    simpa using h

/-! ### Claims about `generate` idempotence and `build_outputs` purity -/

/-- C4 counterexample: with the output directory already present, `generate`
still issues two commands (the Android and Java dependency-setup steps), so
"no command at all" is false. -/
theorem android_generate_output_exists_counterexample :
    androidGenerate (fun _ => none) fsExistsNoWrite true
        ⟨"/chip", AndroidBoard.ARM, AndroidApp.CHIP_TOOL, AndroidProfile.DEBUG, "/out"⟩ =
      .ok [["python3", "third_party/android_deps/set_up_android_deps.py"],
        ["third_party/java_deps/set_up_java_deps.sh"]] ∧
    ([["python3", "third_party/android_deps/set_up_android_deps.py"],
      ["third_party/java_deps/set_up_java_deps.sh"]] : List (List String)) ≠ [] := by
  exact ⟨rfl, by decide⟩

/-- C4 amended: when the output directory exists, `generate` issues exactly
the two unconditional dependency-setup commands and nothing else — in
particular no meta-build generator (`gn gen`) invocation and no license
acceptance — and the skip is decided solely by the directory's existence
(the environment, dry-run flag and all other filesystem state are
universally quantified, and no staleness information is consulted). -/
theorem android_generate_skips_gn_when_output_exists (env : String → Option String)
    (fs : Fs) (dryRun : Bool) (st : AndroidBuilderState)
    (h : fs.pathExists st.output_dir = true) :
    androidGenerate env fs dryRun st = .ok [setUpAndroidDepsCmd, setUpJavaDepsCmd] := by
  simp [androidGenerate, h]

/-- C4 witness: the amended theorem applied at a concrete builder whose
output directory exists. -/
theorem android_generate_skips_gn_witness :
    fsExistsNoWrite.pathExists "/out" = true ∧
    androidGenerate (fun _ => none) fsExistsNoWrite false
        ⟨"/chip", AndroidBoard.ARM64, AndroidApp.TV_SERVER, AndroidProfile.RELEASE, "/out"⟩ =
      .ok [setUpAndroidDepsCmd, setUpJavaDepsCmd] := by
  exact ⟨rfl, android_generate_skips_gn_when_output_exists _ _ _ _ rfl⟩

/-- A filesystem state in which `/out/chip-tool` is a directory holding one
walked file. -/
def imxFsWalked : Fs :=
  ⟨fun _ => false, fun _ => false, fun _ => false, fun _ => false,
    fun p => p == "/out/chip-tool",
    fun p => if p == "/out/chip-tool" then [("/out/chip-tool", "walked.bin")] else [],
    fun _ => none, fun _ => []⟩

/-- C3 counterexample: `IMXBuilder.build_outputs` returns different mappings
for the same board/app/profile state under two filesystem states (no
directory vs. a walked directory), so it is not a pure function of the
builder's state and does read the filesystem. -/
theorem imx_build_outputs_reads_fs_counterexample :
    imxBuildOutputs fsAllFalse ⟨IMXApp.CHIP_TOOL, "/out", false⟩ ≠
      imxBuildOutputs imxFsWalked ⟨IMXApp.CHIP_TOOL, "/out", false⟩ := by
  decide

/-- The IMX output fold ignores `walk` when none of the output paths is a
directory. -/
theorem imx_fold_no_dirs (fs : Fs) (out : String) (l : List String)
    (acc : List (String × String))
    (h : ∀ n ∈ l, fs.isdir (pathJoin out n) = false) :
    l.foldl
      (fun outputs name =>
        if fs.isdir (pathJoin out name) then
          (fs.walk (pathJoin out name)).foldl
            (fun outs rf => dictInsert outs rf.2 (pathJoin rf.1 rf.2)) outputs
        else dictInsert outputs name (pathJoin out name)) acc =
    l.foldl (fun outs n => dictInsert outs n (pathJoin out n)) acc := by
  induction l generalizing acc with
  | nil => rfl
  | cons n rest ih =>
    have hn : fs.isdir (pathJoin out n) = false := h n (List.mem_cons_self n rest)
    simp only [List.foldl_cons, hn, if_neg Bool.false_ne_true]
    exact ih _ fun m hm => h m (List.mem_cons_of_mem n hm)

/-- C3 amended: `AndroidBuilder.build_outputs` and
`BouffalolabBuilder.build_outputs` are pure functions of the builder's state
(identical under any two filesystem states), while `IMXBuilder.build_outputs`
consults the filesystem: when none of the output paths is a directory it
returns the fixed name-to-path table without verifying any file exists, but a
directory among them makes the result depend on the walked filesystem
contents. -/
theorem build_outputs_purity_amended :
    (∀ (fs fs' : Fs) (st : AndroidBuilderState),
      androidBuildOutputs fs st = androidBuildOutputs fs' st) ∧
    (∀ (fs fs' : Fs) (st : BouffalolabState),
      bouffalolabBuildOutputs fs st = bouffalolabBuildOutputs fs' st) ∧
    (∀ (fs : Fs) (st : IMXState),
      (∀ name ∈ st.app.OutputNames, fs.isdir (pathJoin st.output_dir name) = false) →
      imxBuildOutputs fs st =
        st.app.OutputNames.foldl
          (fun outs n => dictInsert outs n (pathJoin st.output_dir n)) []) := by
  refine ⟨fun _ _ _ => rfl, fun _ _ _ => rfl, fun fs st h => ?_⟩
  exact imx_fold_no_dirs fs st.output_dir st.app.OutputNames [] h

/-- C3 witness: the amended theorem applied at a concrete IMX builder state
over a filesystem with no directories. -/
theorem build_outputs_purity_witness :
    (∀ name ∈ IMXApp.CHIP_TOOL.OutputNames,
      fsAllFalse.isdir (pathJoin "/out" name) = false) ∧
    imxBuildOutputs fsAllFalse ⟨IMXApp.CHIP_TOOL, "/out", false⟩ =
      IMXApp.CHIP_TOOL.OutputNames.foldl
        (fun outs n => dictInsert outs n (pathJoin "/out" n)) [] := by
  exact ⟨by decide,
    build_outputs_purity_amended.2.2 fsAllFalse ⟨IMXApp.CHIP_TOOL, "/out", false⟩ (by decide)⟩

/-! ### Claims about missing fields in the IMX setup script -/

/-- The post-scan checks raise the `SDKTARGETSYSROOT` error when the scan
bound no sysroot. -/
theorem imxChecksAfterScan_sysroot_none (st : ToolchainScan)
    (h : st.sdk_target_sysroot = none) :
    imxChecksAfterScan st =
      .error "SDKTARGETSYSROOT is not found in the SDK environment setup script." := by
  simp [imxChecksAfterScan, h]

/-- The post-scan checks raise the `CC and/or CXX` error when either compiler
is unbound. -/
theorem imxChecksAfterScan_cc_missing (st : ToolchainScan) (s : String)
    (hs : st.sdk_target_sysroot = some s) (h : st.cc = none ∨ st.cxx = none) :
    imxChecksAfterScan st =
      .error "CC and/or CXX are not found in the SDK environment setup script." := by
  rcases h with h | h <;>
    cases hcc : st.cc <;> cases hcxx : st.cxx <;>
      simp_all [imxChecksAfterScan, hs]

/-- The post-scan checks raise the `ARCH and/or CROSS_COMPILE` error when the
target CPU or cross-compile prefix is unbound. -/
theorem imxChecksAfterScan_arch_missing (st : ToolchainScan) (s cc0 cxx0 : String)
    (hs : st.sdk_target_sysroot = some s) (hcc : st.cc = some cc0)
    (hcxx : st.cxx = some cxx0)
    (h : st.target_cpu = none ∨ st.cross_compile = none) :
    imxChecksAfterScan st =
      .error "ARCH and/or CROSS_COMPILE are not found in the SDK environment setup script." := by
  rcases h with h | h <;>
    cases hcpu : st.target_cpu <;> cases hcross : st.cross_compile <;>
      simp_all [imxChecksAfterScan, hs, hcc, hcxx]

/-- When the scan succeeds, `GnBuildArgs` propagates the post-scan check
error verbatim. -/
theorem imxGnBuildArgs_checks_error (env : String → Option String) (fs : Fs)
    (release : Bool) (sdkRoot : String) (entries : List String) (script : String)
    (henv : env "IMX_SDK_ROOT" = some sdkRoot)
    (hls : fs.listdir sdkRoot = some entries)
    (hfind : entries.find? (fun entry => ("environment-setup-".data).isPrefixOf entry.data) =
      some script)
    (st : ToolchainScan) (msg : String)
    (hscan : scanSetupLines (fs.readLines (pathJoin sdkRoot script)) = .ok st)
    (hchk : imxChecksAfterScan st = .error msg) :
    imxGnBuildArgs env fs release = .error msg := by
  simp [imxGnBuildArgs, sysRootPath, henv, hls, hfind, hscan, hchk,
    bind, Except.bind, Except.map]

/-- When the scan itself raises, `GnBuildArgs` propagates that error. -/
theorem imxGnBuildArgs_scan_error (env : String → Option String) (fs : Fs)
    (release : Bool) (sdkRoot : String) (entries : List String) (script : String)
    (henv : env "IMX_SDK_ROOT" = some sdkRoot)
    (hls : fs.listdir sdkRoot = some entries)
    (hfind : entries.find? (fun entry => ("environment-setup-".data).isPrefixOf entry.data) =
      some script)
    (msg : String)
    (hscan : scanSetupLines (fs.readLines (pathJoin sdkRoot script)) = .error msg) :
    imxGnBuildArgs env fs release = .error msg := by
  simp [imxGnBuildArgs, sysRootPath, henv, hls, hfind, hscan, bind, Except.bind]

/-- C8: with the setup script present, `GnBuildArgs` raises the descriptive
error for each missing-field case — no `SDKTARGETSYSROOT` export, a missing
`CC` or `CXX` export, a missing `ARCH` or `CROSS_COMPILE` export — and an
`export ARCH=` line whose token is neither `arm64` nor `arm` aborts the scan
with the `ARCH should be arm64 or arm` error, which the whole method
propagates. -/
theorem imx_setup_script_missing_fields (env : String → Option String) (fs : Fs)
    (release : Bool) (sdkRoot : String) (entries : List String) (script : String)
    (henv : env "IMX_SDK_ROOT" = some sdkRoot)
    (hls : fs.listdir sdkRoot = some entries)
    (hfind : entries.find? (fun entry => ("environment-setup-".data).isPrefixOf entry.data) =
      some script) :
    (∀ st, scanSetupLines (fs.readLines (pathJoin sdkRoot script)) = .ok st →
      st.sdk_target_sysroot = none →
      imxGnBuildArgs env fs release =
        .error "SDKTARGETSYSROOT is not found in the SDK environment setup script.") ∧
    (∀ st s, scanSetupLines (fs.readLines (pathJoin sdkRoot script)) = .ok st →
      st.sdk_target_sysroot = some s → (st.cc = none ∨ st.cxx = none) →
      imxGnBuildArgs env fs release =
        .error "CC and/or CXX are not found in the SDK environment setup script.") ∧
    (∀ st s cc0 cxx0, scanSetupLines (fs.readLines (pathJoin sdkRoot script)) = .ok st →
      st.sdk_target_sysroot = some s → st.cc = some cc0 → st.cxx = some cxx0 →
      (st.target_cpu = none ∨ st.cross_compile = none) →
      imxGnBuildArgs env fs release =
        .error "ARCH and/or CROSS_COMPILE are not found in the SDK environment setup script.") ∧
    (∀ msg, scanSetupLines (fs.readLines (pathJoin sdkRoot script)) = .error msg →
      imxGnBuildArgs env fs release = .error msg) ∧
    (∀ (st : ToolchainScan) (line v tok : String),
      matchExport "SDKTARGETSYSROOT" line = none → matchExport "CC" line = none →
      matchExport "CXX" line = none → matchExport "ARCH" line = some v →
      shlexFirstToken v = some tok → tok ≠ "arm64" → tok ≠ "arm" →
      scanSetupLine st line =
        .error "ARCH should be arm64 or arm in the SDK environment setup script.") ∧
    (∀ (pre post : List String) (line : String) (st : ToolchainScan) (msg : String),
      scanSetupLines pre = .ok st → scanSetupLine st line = .error msg →
      scanSetupLines (pre ++ line :: post) = .error msg) := by
  refine ⟨fun st hscan hnone =>
      imxGnBuildArgs_checks_error env fs release sdkRoot entries script henv hls hfind st _
        hscan (imxChecksAfterScan_sysroot_none st hnone),
    fun st s hscan hs hcc =>
      imxGnBuildArgs_checks_error env fs release sdkRoot entries script henv hls hfind st _
        hscan (imxChecksAfterScan_cc_missing st s hs hcc),
    fun st s cc0 cxx0 hscan hs hcc hcxx harch =>
      imxGnBuildArgs_checks_error env fs release sdkRoot entries script henv hls hfind st _
        hscan (imxChecksAfterScan_arch_missing st s cc0 cxx0 hs hcc hcxx harch),
    fun msg hscan =>
      imxGnBuildArgs_scan_error env fs release sdkRoot entries script henv hls hfind msg
        hscan,
    fun st line v tok h1 h2 h3 h4 h5 h6 h7 => ?_,
    fun pre post line st msg hpre hline => ?_⟩
  · simp [scanSetupLine, h1, h2, h3, h4, h5, h6, h7, bind, Except.bind, pure, Except.pure]
  · unfold scanSetupLines
    rw [List.foldlM_append]
    unfold scanSetupLines at hpre
    rw [hpre]
    show (scanSetupLine st line >>= fun b => List.foldlM scanSetupLine b post) = .error msg
    rw [hline]
    rfl

/-- An environment where only `IMX_SDK_ROOT` is set, to `/sdk`. -/
def imxEnvSdk : String → Option String :=
  fun n => if n = "IMX_SDK_ROOT" then some "/sdk" else none

/-- A filesystem whose `/sdk` directory lists one setup script with the given
lines. -/
def imxFsWithLines (lines : List String) : Fs :=
  ⟨fun _ => false, fun _ => false, fun _ => false, fun _ => false, fun _ => false,
    fun _ => [],
    fun p => if p == "/sdk" then some ["environment-setup-aarch64"] else none,
    fun _ => lines⟩

/-- C8 witness: the missing-field theorem applied at concrete setup scripts,
one per failure condition. -/
theorem imx_setup_script_missing_fields_witness :
    imxGnBuildArgs imxEnvSdk (imxFsWithLines ["export CC=gcc", "export CXX=g++",
        "export ARCH=arm64", "export CROSS_COMPILE=aarch64-poky-linux-"]) false =
      .error "SDKTARGETSYSROOT is not found in the SDK environment setup script." ∧
    imxGnBuildArgs imxEnvSdk (imxFsWithLines ["export SDKTARGETSYSROOT=/sr",
        "export ARCH=arm", "export CROSS_COMPILE=abc-"]) false =
      .error "CC and/or CXX are not found in the SDK environment setup script." ∧
    imxGnBuildArgs imxEnvSdk (imxFsWithLines ["export SDKTARGETSYSROOT=/sr",
        "export CC=gcc", "export CXX=g++"]) false =
      .error "ARCH and/or CROSS_COMPILE are not found in the SDK environment setup script." ∧
    imxGnBuildArgs imxEnvSdk (imxFsWithLines ["export ARCH=x86"]) false =
      .error "ARCH should be arm64 or arm in the SDK environment setup script." ∧
    scanSetupLine toolchainScanInit "export ARCH=x86" =
      .error "ARCH should be arm64 or arm in the SDK environment setup script." ∧
    scanSetupLines ["export ARCH=x86"] =
      .error "ARCH should be arm64 or arm in the SDK environment setup script." := by
  refine ⟨(imx_setup_script_missing_fields imxEnvSdk _ false "/sdk"
        ["environment-setup-aarch64"] "environment-setup-aarch64" rfl rfl (by decide)).1
      ⟨none, some "gcc", some "g++", some "arm64", some "armv8-a",
        some "aarch64-poky-linux"⟩ (by rfl) rfl,
    (imx_setup_script_missing_fields imxEnvSdk _ false "/sdk"
        ["environment-setup-aarch64"] "environment-setup-aarch64" rfl rfl (by decide)).2.1
      ⟨some "/sr", none, none, some "arm", some "armv7ve", some "abc"⟩ "/sr"
      (by rfl) rfl (Or.inl rfl),
    (imx_setup_script_missing_fields imxEnvSdk _ false "/sdk"
        ["environment-setup-aarch64"] "environment-setup-aarch64" rfl rfl (by decide)).2.2.1
      ⟨some "/sr", some "gcc", some "g++", none, none, none⟩ "/sr" "gcc" "g++"
      (by rfl) rfl rfl rfl (Or.inl rfl),
    (imx_setup_script_missing_fields imxEnvSdk _ false "/sdk"
        ["environment-setup-aarch64"] "environment-setup-aarch64" rfl rfl (by decide)).2.2.2.1
      "ARCH should be arm64 or arm in the SDK environment setup script." (by rfl),
    (imx_setup_script_missing_fields imxEnvSdk
        (imxFsWithLines ["export ARCH=x86"]) false "/sdk"
        ["environment-setup-aarch64"] "environment-setup-aarch64" rfl rfl (by decide)).2.2.2.2.1
      toolchainScanInit "export ARCH=x86" "x86" "x86" rfl rfl rfl rfl rfl
      (by decide) (by decide),
    (imx_setup_script_missing_fields imxEnvSdk
        (imxFsWithLines ["export ARCH=x86"]) false "/sdk"
        ["environment-setup-aarch64"] "environment-setup-aarch64" rfl rfl (by decide)).2.2.2.2.2
      [] [] "export ARCH=x86" toolchainScanInit _ rfl (by rfl)⟩
